import Mathlib

/-!
Verification of the Rental_Management_113 front-end API client
(`src/frontend/src/pages/Login.tsx`: the `Login` component and the
`ApiService` class) against its natural-language specification.

The embedding models:
* browser local storage as an association list of key/value strings;
* observable effects of a method call as a trace of events
  (HTTP fetches, artificial delays, invocations of the registered
  force-logout callback);
* JSON response bodies as a small inductive `Json` type, with a `none`
  body standing for a body that fails to parse as JSON;
* each method's outcome as `Except String α` (`Except.error` models a
  thrown `Error` with the given message, `Except.ok` a resolved value;
  `Except.ok none` models resolving with `undefined`).
-/

/-- Browser local storage: an association list of key/value strings. -/
abbrev Storage := List (String × String)

/-- Model of `localStorage.getItem`: the value stored under `k`, if any. -/
def getItem (st : Storage) (k : String) : Option String :=
  (st.find? (fun kv => kv.fst == k)).map (fun kv => kv.snd)

/-- Model of `localStorage.removeItem`: drop every binding of key `k`. -/
def removeItem (st : Storage) (k : String) : Storage :=
  st.filter (fun kv => kv.fst != k)

/-- JSON values, as produced by `response.json()`. -/
inductive Json where
  | null : Json
  | str : String → Json
  | num : Int → Json
  | bool : Bool → Json
  | arr : List Json → Json
  | obj : List (String × Json) → Json

/-- JavaScript truthiness of a JSON value (`null`, `""`, `0`, `false`
are falsy; arrays and objects are always truthy). -/
def jsTruthy : Json → Bool
  | Json.null => false
  | Json.str s => s != ""
  | Json.num n => n != 0
  | Json.bool b => b
  | Json.arr _ => true
  | Json.obj _ => true

/-- Whether a JSON value is `null`. -/
def jsIsNull : Json → Bool
  | Json.null => true
  | _ => false

mutual

/-- JavaScript `String(·)` coercion of a JSON value, as applied by
`new Error(x)` to a non-string `x` (objects print as `[object Object]`,
arrays join their elements with commas). -/
def jsToString : Json → String
  | Json.null => "null"
  | Json.str s => s
  | Json.num n => toString n
  | Json.bool b => cond b "true" "false"
  | Json.arr xs => String.intercalate "," (jsToStringList xs)
  | Json.obj _ => "[object Object]"

/-- The element renderings joined by `Array.prototype.toString` (a
`null` element joins as the empty string). -/
def jsToStringList : List Json → List String
  | [] => []
  | j :: js => (if jsIsNull j then "" else jsToString j) :: jsToStringList js

end

/-- Model of `data?.k`: field lookup on a JSON value; `none` stands for
JavaScript `undefined` (non-objects, including `null`, have no fields;
a parsed JSON object has unique keys). -/
def jsLookup (j : Json) (k : String) : Option Json :=
  match j with
  | Json.obj fields => (fields.find? (fun kv => kv.fst == k)).map (fun kv => kv.snd)
  | _ => none

/-- Model of the JavaScript expression `data?.k` used on the left of
`||`: the field's value when present and truthy, else nothing. -/
def truthyField (j : Json) (k : String) : Option Json :=
  match jsLookup j k with
  | some v => if jsTruthy v then some v else none
  | none => none

/-- The error message of `new Error(data?.message || data?.error ||
'Unexpected error')` in `handleResponse`. -/
def errMsgOf (data : Json) : String :=
  match truthyField data "message" with
  | some v => jsToString v
  | none =>
      match truthyField data "error" with
      | some v => jsToString v
      | none => "Unexpected error"

/-- An HTTP request as assembled by the client: URL, HTTP method,
headers, and an optional string body. -/
structure Request where
  url : String
  method : String
  headers : List (String × String)
  body : Option String
deriving DecidableEq

/-- Observable events of a method call: an HTTP fetch, an artificial
delay of the given milliseconds, or an invocation of the currently
registered force-logout callback (a single process-wide slot, initially
a no-op, replaced by `setForceLogout`). -/
inductive Ev where
  | fetch : Request → Ev
  | delay : Nat → Ev
  | forceLogout : Ev
deriving DecidableEq

/-- Whether a trace contains an HTTP fetch event. -/
def hasFetch (evs : List Ev) : Bool :=
  evs.any (fun e => match e with | Ev.fetch _ => true | _ => false)

/-- An HTTP response as seen by `handleResponse`: a status code and the
result of `response.json()` (`none` when the body fails to parse). -/
structure Response where
  status : Nat
  body : Option Json

/-- The `Response.ok` flag of the fetch API: status in the range
200–299. -/
def respOk (status : Nat) : Bool :=
  decide (200 ≤ status ∧ status ≤ 299)

/-- Model of `ApiService.handleResponse`. On 401/403 it removes the
stored `auth_token`, invokes the force-logout callback and returns
(resolving with `undefined`, modelled `Except.ok none`). Otherwise it
parses the body (throwing `Invalid response format.` on parse failure),
returns the data on an ok status, and throws the message derived from
the body on any other status. -/
def handleResponse (storage : Storage) (resp : Response) :
    Storage × List Ev × Except String (Option Json) :=
  if resp.status = 401 ∨ resp.status = 403 then
    (removeItem storage "auth_token", [Ev.forceLogout], Except.ok none)
  else
    match resp.body with
    | none => (storage, [], Except.error "Invalid response format.")
    | some data =>
        if respOk resp.status then
          (storage, [], Except.ok (some data))
        else
          (storage, [], Except.error (errMsgOf data))

/-- JavaScript truthiness filter on the token read from storage: the
guard `token && …` treats an empty-string token like an absent one. -/
def truthyToken (o : Option String) : Option String :=
  match o with
  | some t => if t = "" then none else some t
  | none => none

/-- The fixed `Content-Type: application/json` header list used by the
methods that do not attach authorization. -/
def plainJsonHeaders : List (String × String) :=
  [("Content-Type", "application/json")]

/-- Model of `ApiService.getAuthHeaders`: `Content-Type` plus, when a
truthy token is stored under `auth_token`, an
`Authorization: Bearer <token>` header. -/
def getAuthHeaders (storage : Storage) : List (String × String) :=
  plainJsonHeaders ++
    (match truthyToken (getItem storage "auth_token") with
     | some t => [("Authorization", "Bearer " ++ t)]
     | none => [])

/-- The request-issuing methods of `ApiService` (every method whose body
performs a `fetch`; the mock methods `processPayment`, `getRevenue`,
`getRentalStatus`, `getTopProducts` issue none). -/
inductive ApiMethod where
  | generateOTP | verifyOTP | signup | signin | getCurrentUser | updateProfile
  | checkAdmin | checkUser | getAllUsers | deleteUser
  | getDashboard | impersonateUser
  | getAllProducts | getProductById | createProduct | updateProduct | deleteProduct
  | addProductDuration | addProductAvailability | updateProductAvailability
  | deleteProductAvailability
  | createRental | getAllRentals | getMyRentals | updateRentalStatus | deleteRental
  | createQuotation | acceptQuotation | getAllQuotations | getMyQuotations
  | deleteQuotation
  | createInvoice | getAllInvoices | getInvoiceById | updateInvoiceStatus
  | deleteInvoice
  | createPayment | getMyPayments | getAllPayments | updatePaymentStatus
  | deletePayment
  | createNotification | getMyNotifications | markNotificationAsRead
  | deleteNotification
  | createPickup | completePickup | getAllPickups | getMyPickups | deletePickup
  | createRentalReturn | completeRentalReturn | getAllRentalReturns
  | getMyRentalReturns | updateRentalReturn | deleteRentalReturn
deriving DecidableEq

/-- Which request-issuing methods pass `this.getAuthHeaders()` as their
headers. In the source, `generateOTP`, `verifyOTP`, `signup`, `signin`,
`checkAdmin` and `checkUser` instead pass the literal
`{'Content-Type': 'application/json'}`; every other method passes
`this.getAuthHeaders()`. -/
def usesAuthHeaders : ApiMethod → Bool
  | ApiMethod.generateOTP | ApiMethod.verifyOTP | ApiMethod.signup
  | ApiMethod.signin | ApiMethod.checkAdmin | ApiMethod.checkUser => false
  | _ => true

/-- The header list a method sends on its request, given the current
storage. -/
def requestHeaders (m : ApiMethod) (storage : Storage) : List (String × String) :=
  if usesAuthHeaders m then getAuthHeaders storage else plainJsonHeaders

/-- Whether a header list contains no `Authorization` header. -/
def noAuthHeader (hs : List (String × String)) : Bool :=
  hs.all (fun kv => kv.fst != "Authorization")

/-- Model of `API_BASE_URL`: the `VITE_API_URL` environment value when
set and non-empty (JavaScript `||` on strings), else the local
development fallback. -/
def API_BASE_URL (env : Option String) : String :=
  match env with
  | some s => if s = "" then "http://localhost:5000/api" else s
  | none => "http://localhost:5000/api"

/-- Escape of one character inside a JSON string literal, as produced by
`JSON.stringify` (quotes and backslashes; control characters do not
occur in the inputs considered here). -/
def escapeChar (c : Char) : String :=
  if c = '"' then "\\\"" else if c = '\\' then "\\\\" else String.mk [c]

/-- A JSON string literal for `s`, as produced by `JSON.stringify`. -/
def jsStringLit (s : String) : String :=
  "\"" ++ String.join (s.toList.map escapeChar) ++ "\""

/-- Model of the request issued by `ApiService.updateRentalStatus`:
`PUT` to `{base}/rental/{id}/status` with body
`JSON.stringify({ status })` and `this.getAuthHeaders()`. -/
def updateRentalStatusRequest (env : Option String) (storage : Storage)
    (id status : String) : Request :=
  { url := API_BASE_URL env ++ "/rental/" ++ id ++ "/status"
  , method := "PUT"
  , headers := getAuthHeaders storage
  , body := some ("\x7b\"status\":" ++ jsStringLit status ++ "\x7d") }

/-- Model of the request issued by `ApiService.getCurrentUser` when a
token is present: `GET` to `{base}/auth/me` with
`this.getAuthHeaders()`. -/
def getCurrentUserRequest (env : Option String) (storage : Storage) : Request :=
  { url := API_BASE_URL env ++ "/auth/me"
  , method := "GET"
  , headers := getAuthHeaders storage
  , body := none }

/-- Model of `ApiService.getCurrentUser`. When no truthy token is stored
under `auth_token` it returns `\x7b user: null \x7d` without fetching;
otherwise it fetches `{base}/auth/me` and returns the outcome of
`handleResponse` on the network's response `resp` (the `catch` clause
only logs and rethrows, so the outcome is unchanged by it). -/
def getCurrentUser (env : Option String) (storage : Storage) (resp : Response) :
    Storage × List Ev × Except String (Option Json) :=
  match truthyToken (getItem storage "auth_token") with
  | none => (storage, [], Except.ok (some (Json.obj [("user", Json.null)])))
  | some _ =>
      let r := handleResponse storage resp
      (r.1, Ev.fetch (getCurrentUserRequest env storage) :: r.2.1, r.2.2)

/-- The value resolved by `ApiService.processPayment` on success. -/
structure PaySuccess where
  success : Bool
  transactionId : String
  message : String
deriving DecidableEq

/-- Model of `ApiService.processPayment`. The draw of `Math.random()` is
the parameter `r`, `Date.now()` is `now`, and `suffix` is the rendering
`Math.random().toString(36).substr(2, 9)` of the second draw. After a
2000 ms delay, it succeeds when `r > 0.1` with transaction identifier
`TXN_<now>_<suffix>`, else throws a fixed error; no fetch occurs. -/
def processPayment (r : ℚ) (now : Nat) (suffix : String) :
    List Ev × Except String PaySuccess :=
  if r > 1 / 10 then
    ([Ev.delay 2000],
     Except.ok
       { success := true
       , transactionId := "TXN_" ++ toString now ++ "_" ++ suffix
       , message := "Payment processed successfully" })
  else
    ([Ev.delay 2000], Except.error "Payment failed. Please try again.")

/-- Milliseconds in a day, the divisor used by `getRevenue`. -/
def msPerDay : Int := 86400000

/-- Left-pad the decimal rendering of `n` with zeros to `width`
digits. -/
def pad (width : Nat) (n : Nat) : String :=
  let s := toString n
  if s.length < width then String.mk (List.replicate (width - s.length) '0') ++ s
  else s

/-- Gregorian calendar date of a day count from the Unix epoch
(civil-from-days, with floor division), giving (year, month, day). -/
def civilFromDays (z0 : Int) : Int × Int × Int :=
  let z := z0 + 719468
  let era := Int.fdiv z 146097
  let doe := z - era * 146097
  let yoe := Int.fdiv (doe - Int.fdiv doe 1460 + Int.fdiv doe 36524 - Int.fdiv doe 146096) 365
  let y := yoe + era * 400
  let doy := doe - (365 * yoe + Int.fdiv yoe 4 - Int.fdiv yoe 100)
  let mp := Int.fdiv (5 * doy + 2) 153
  let d := doy - Int.fdiv (153 * mp + 2) 5 + 1
  let m := mp + (if mp < 10 then 3 else -9)
  (y + (if m ≤ 2 then 1 else 0), m, d)

/-- Model of `new Date(ms).toISOString().split('T')[0]` for dates with a
non-negative four-digit year: the `YYYY-MM-DD` rendering of the epoch
millisecond timestamp `ms`. -/
def isoDateOfMs (ms : Int) : String :=
  match civilFromDays (Int.fdiv ms msPerDay) with
  | (y, m, d) => pad 4 y.toNat ++ "-" ++ pad 2 m.toNat ++ "-" ++ pad 2 d.toNat

/-- One record of the mock revenue report. -/
structure RevRecord where
  date : String
  revenue : Int
  rentals : Int
deriving DecidableEq

/-- The number of records generated by `getRevenue`:
`Math.ceil((end - start) / 86400000)` on the epoch-millisecond
timestamps of the two dates. -/
def revenueDays (startMs endMs : Int) : Int :=
  Int.ceil (((endMs - startMs : Int) : ℚ) / (msPerDay : ℚ))

/-- The record generated by `getRevenue` for index `i`: the ISO date of
`start + i` days, plus revenue and rental counts derived from two draws
of `Math.random()` (the stream `rnd`, consumed two draws per record). -/
def revRecordAt (rnd : Nat → ℚ) (startMs : Int) (i : Nat) : RevRecord :=
  { date := isoDateOfMs (startMs + (i : Int) * msPerDay)
  , revenue := Int.floor (rnd (2 * i) * 5000) + 1000
  , rentals := Int.floor (rnd (2 * i + 1) * 20) + 5 }

/-- Model of `ApiService.getRevenue`. The two date strings are modelled
by their epoch-millisecond values `startMs`/`endMs` (the result of
`new Date(s).getTime()`), and `rnd` is the stream of `Math.random()`
draws. After a 500 ms delay, it resolves with one record per index below
`Math.ceil((end - start) / 86400000)` (a non-positive length yields no
records, as `Array.from` clamps it to zero); no fetch occurs. -/
def getRevenue (rnd : Nat → ℚ) (startMs endMs : Int) :
    List Ev × List RevRecord :=
  ([Ev.delay 500],
   (List.range (revenueDays startMs endMs).toNat).map (revRecordAt rnd startMs))

/-- One record of the mock rental-status report. -/
structure StatusCount where
  status : String
  count : Nat
deriving DecidableEq

/-- Model of `ApiService.getRentalStatus`: after a 300 ms delay,
resolves with a fixed list of status counts; no fetch occurs. -/
def getRentalStatus : List Ev × List StatusCount :=
  ([Ev.delay 300],
   [ { status := "CONFIRMED", count := 25 }
   , { status := "PICKUP_SCHEDULED", count := 15 }
   , { status := "PICKED_UP", count := 30 }
   , { status := "RETURNED", count := 40 }
   , { status := "COMPLETED", count := 80 } ])

/-- One record of the mock top-products report. -/
structure TopProduct where
  productName : String
  totalRevenue : Nat
  totalRentals : Nat
deriving DecidableEq

/-- Model of `ApiService.getTopProducts`: after a 400 ms delay, resolves
with a fixed list of products; no fetch occurs. -/
def getTopProducts : List Ev × List TopProduct :=
  ([Ev.delay 400],
   [ { productName := "Canon EOS R5", totalRevenue := 25000, totalRentals := 45 }
   , { productName := "MacBook Pro 16\"", totalRevenue := 18000, totalRentals := 32 }
   , { productName := "Sony A7 III", totalRevenue := 15000, totalRentals := 38 }
   , { productName := "DJI Mavic Air 2", totalRevenue := 12000, totalRentals := 28 }
   , { productName := "Nikon D850", totalRevenue := 10000, totalRentals := 22 } ])

/-- Model of JavaScript `s.includes(sub)`: substring containment. -/
def jsIncludes (s sub : String) : Bool :=
  decide (List.IsInfix sub.toList s.toList)

/-- Model of the `Login` component's `handleSubmit`: it issues no
request, derives the role from whether the email contains `admin`, and
invokes `onLogin` with that role (the returned string); the password is
not inspected. -/
def handleSubmit (email password : String) : List Ev × String :=
  ([], if jsIncludes email "admin" then "admin" else "customer")

theorem getItem_removeItem_self (st : Storage) (k : String) :
    getItem (removeItem st k) k = none := by
  induction st with
  | nil => rfl
  | cons kv t ih =>
      by_cases h : kv.fst = k
      · rw [removeItem, List.filter_cons_of_neg (by simp [h])]
        exact ih
      · rw [removeItem, List.filter_cons_of_pos (by simp [h]),
          getItem, List.find?_cons_of_neg _ (by simp [h])]
        exact ih

theorem getItem_removeItem_ne (st : Storage) (k k2 : String) (h : k2 ≠ k) :
    getItem (removeItem st k) k2 = getItem st k2 := by
  induction st with
  | nil => rfl
  | cons kv t ih =>
      by_cases hk : kv.fst = k
      · have hne : kv.fst ≠ k2 := by
          rw [hk]
          exact fun he => h he.symm
        rw [removeItem, List.filter_cons_of_neg (by simp [hk])]
        rw [show getItem (kv :: t) k2 = getItem t k2 from by
          rw [getItem, List.find?_cons_of_neg _ (by simp [hne])]
          rfl]
        exact ih
      · rw [removeItem, List.filter_cons_of_pos (by simp [hk])]
        by_cases h2 : kv.fst = k2
        · rw [getItem, List.find?_cons_of_pos _ (by simp [h2]),
            getItem, List.find?_cons_of_pos _ (by simp [h2])]
        · rw [getItem, List.find?_cons_of_neg _ (by simp [h2]),
            getItem, List.find?_cons_of_neg _ (by simp [h2])]
          exact ih

/-- Claim C1: for every response with status 401 or 403, regardless of
body content, `handleResponse` deletes the stored token (the
`auth_token` key reads back as absent, other keys are untouched),
invokes the currently registered force-logout callback exactly once,
and resolves with `undefined` rather than throwing. -/
theorem handleResponse_auth_teardown (storage : Storage) (resp : Response)
    (h : resp.status = 401 ∨ resp.status = 403) :
    getItem (handleResponse storage resp).1 "auth_token" = none ∧
    (∀ k2, k2 ≠ "auth_token" →
      getItem (handleResponse storage resp).1 k2 = getItem storage k2) ∧
    (handleResponse storage resp).2.1 = [Ev.forceLogout] ∧
    (handleResponse storage resp).2.2 = Except.ok none := by
  unfold handleResponse
  rw [if_pos h]
  exact ⟨getItem_removeItem_self storage "auth_token",
    fun k2 hk2 => getItem_removeItem_ne storage "auth_token" k2 hk2, rfl, rfl⟩

theorem handleResponse_auth_teardown_w :
    getItem (handleResponse [("auth_token", "tok"), ("theme", "dark")]
      ⟨401, none⟩).1 "auth_token" = none ∧
    (handleResponse [("auth_token", "tok"), ("theme", "dark")]
      ⟨401, none⟩).2.1 = [Ev.forceLogout] ∧
    (handleResponse [("auth_token", "tok"), ("theme", "dark")]
      ⟨401, none⟩).2.2 = Except.ok none :=
  have h := handleResponse_auth_teardown [("auth_token", "tok"), ("theme", "dark")]
    ⟨401, none⟩ (Or.inl rfl)
  ⟨h.1, h.2.2.1, h.2.2.2⟩

/-- Claim C10: for every response whose status is neither 401 nor 403,
`handleResponse` leaves the stored token unchanged and never invokes
the force-logout callback, whether it resolves or throws. -/
theorem handleResponse_frame (storage : Storage) (resp : Response)
    (h1 : resp.status ≠ 401) (h2 : resp.status ≠ 403) :
    (handleResponse storage resp).1 = storage ∧
    Ev.forceLogout ∉ (handleResponse storage resp).2.1 := by
  have hcond : ¬(resp.status = 401 ∨ resp.status = 403) := by
    rintro (h | h)
    · exact h1 h
    · exact h2 h
  unfold handleResponse
  rw [if_neg hcond]
  cases hb : resp.body with
  | none => exact ⟨rfl, by simp⟩
  | some data =>
      by_cases hok : respOk resp.status <;> simp [hok]

theorem handleResponse_frame_w :
    (handleResponse [("auth_token", "tok")] ⟨500, none⟩).1
      = [("auth_token", "tok")] ∧
    Ev.forceLogout ∉ (handleResponse [("auth_token", "tok")] ⟨500, none⟩).2.1 :=
  handleResponse_frame [("auth_token", "tok")] ⟨500, none⟩ (by decide) (by decide)

/-- Claim C3 counterexample: a 401 response whose body fails to parse
does not fail with the fixed `Invalid response format.` error — it
resolves with `undefined` (the 401/403 branch returns before the body is
ever parsed), so the claim is false as stated for statuses 401/403. -/
theorem parse_failure_at_401_resolves :
    (handleResponse [("auth_token", "tok")] ⟨401, none⟩).2.2 = Except.ok none ∧
    (Except.ok none : Except String (Option Json))
      ≠ Except.error "Invalid response format." :=
  ⟨rfl, fun h => Except.noConfusion h⟩

/-- Claim C3 as amended: for every response whose status is neither 401
nor 403, a body that fails to parse as JSON makes the method fail with
the fixed `Invalid response format.` error, regardless of the status
(2xx included). -/
theorem parse_failure_error_message (storage : Storage) (resp : Response)
    (h1 : resp.status ≠ 401) (h2 : resp.status ≠ 403) (hb : resp.body = none) :
    (handleResponse storage resp).2.2 = Except.error "Invalid response format." := by
  have hcond : ¬(resp.status = 401 ∨ resp.status = 403) := by
    rintro (h | h)
    · exact h1 h
    · exact h2 h
  unfold handleResponse
  rw [if_neg hcond, hb]

theorem parse_failure_error_message_w :
    (handleResponse [] ⟨200, none⟩).2.2 = Except.error "Invalid response format." :=
  parse_failure_error_message [] ⟨200, none⟩ (by decide) (by decide) rfl

/-- Claim C4 counterexample: on a 500 response whose JSON body has no
`message` field but an `error` field `"boom"`, the method fails with
`boom`, not with the fixed fallback string `Unexpected error` — the code
falls back to `data?.error` before the fallback, so the claim is false
as stated. -/
theorem error_field_overrides_fallback :
    (handleResponse [] ⟨500, some (Json.obj [("error", Json.str "boom")])⟩).2.2
      = Except.error "boom" ∧ "boom" ≠ "Unexpected error" :=
  ⟨rfl, by decide⟩

/-- Claim C4 as amended: for every non-2xx response (status neither 401
nor 403) whose body parses as JSON, the method fails with the `message`
field's value when that field is present and truthy; otherwise with the
`error` field's value when that field is present and truthy; otherwise
with the fixed fallback string `Unexpected error`. -/
theorem non_ok_error_message (storage : Storage) (resp : Response) (data : Json)
    (h1 : resp.status ≠ 401) (h2 : resp.status ≠ 403)
    (hb : resp.body = some data) (hok : respOk resp.status = false) :
    (∀ v, truthyField data "message" = some v →
      (handleResponse storage resp).2.2 = Except.error (jsToString v)) ∧
    (truthyField data "message" = none →
      ∀ v, truthyField data "error" = some v →
        (handleResponse storage resp).2.2 = Except.error (jsToString v)) ∧
    (truthyField data "message" = none → truthyField data "error" = none →
      (handleResponse storage resp).2.2 = Except.error "Unexpected error") := by
  have hcond : ¬(resp.status = 401 ∨ resp.status = 403) := by
    rintro (h | h)
    · exact h1 h
    · exact h2 h
  unfold handleResponse
  rw [if_neg hcond, hb]
  simp only [hok, Bool.false_eq_true, if_false]
  refine ⟨?_, ?_, ?_⟩
  · intro v hv
    unfold errMsgOf
    rw [hv]
  · intro hm v hv
    unfold errMsgOf
    rw [hm, hv]
  · intro hm he
    unfold errMsgOf
    rw [hm, he]

theorem non_ok_error_message_w :
    (handleResponse [] ⟨500, some (Json.obj [("message", Json.str "bad")])⟩).2.2
      = Except.error "bad" :=
  (non_ok_error_message [] ⟨500, some (Json.obj [("message", Json.str "bad")])⟩
      (Json.obj [("message", Json.str "bad")]) (by decide) (by decide) rfl
      (by decide)).1 (Json.str "bad") rfl

/-- Claim C2 counterexample: with a token stored under `auth_token`,
`generateOTP` still sends no `Authorization` header (its request passes
the literal `Content-Type` header object, not `getAuthHeaders`), so the
claim is false as stated for the plain-header methods. -/
theorem generateOTP_omits_auth_header :
    getItem [("auth_token", "tok")] "auth_token" = some "tok" ∧
    noAuthHeader (requestHeaders ApiMethod.generateOTP [("auth_token", "tok")]) = true :=
  ⟨rfl, rfl⟩

/-- Claim C2 as amended: every request-issuing method that passes
`getAuthHeaders` (all of them except `generateOTP`, `verifyOTP`,
`signup`, `signin`, `checkAdmin` and `checkUser`) carries
`Authorization: Bearer <token>` when a non-empty token is stored under
`auth_token`, and no `Authorization` header when no truthy token is
stored; the six excepted methods never carry an `Authorization` header,
even when a token is stored. -/
theorem auth_header_policy (m : ApiMethod) (storage : Storage) :
    (usesAuthHeaders m = true →
      (∀ t, getItem storage "auth_token" = some t → t ≠ "" →
        ("Authorization", "Bearer " ++ t) ∈ requestHeaders m storage) ∧
      (truthyToken (getItem storage "auth_token") = none →
        noAuthHeader (requestHeaders m storage) = true)) ∧
    (usesAuthHeaders m = false →
      noAuthHeader (requestHeaders m storage) = true) := by
  refine ⟨fun hm => ⟨fun t ht hne => ?_, fun hz => ?_⟩, fun hm => ?_⟩
  · rw [requestHeaders, if_pos hm, getAuthHeaders, ht]
    simp [truthyToken, hne, plainJsonHeaders]
  · rw [requestHeaders, if_pos hm, getAuthHeaders, hz]
    rfl
  · rw [requestHeaders, if_neg (by simp [hm])]
    rfl

theorem auth_header_policy_w :
    ("Authorization", "Bearer tok")
      ∈ requestHeaders ApiMethod.getDashboard [("auth_token", "tok")] :=
  ((auth_header_policy ApiMethod.getDashboard [("auth_token", "tok")]).1 rfl).1
    "tok" rfl (by decide)

/-- Claim C5: `processPayment` issues no backend request; after the
fixed delay it succeeds exactly when the drawn random number exceeds
0.1, resolving with a transaction identifier `TXN_<timestamp>_<random>`,
and otherwise throws the fixed `Payment failed. Please try again.`
error. -/
theorem processPayment_spec (r : ℚ) (now : Nat) (suffix : String) :
    hasFetch (processPayment r now suffix).1 = false ∧
    (processPayment r now suffix).1 = [Ev.delay 2000] ∧
    (r > 1 / 10 → (processPayment r now suffix).2 =
      Except.ok
        { success := true
        , transactionId := "TXN_" ++ toString now ++ "_" ++ suffix
        , message := "Payment processed successfully" }) ∧
    (¬r > 1 / 10 → (processPayment r now suffix).2 =
      Except.error "Payment failed. Please try again.") := by
  unfold processPayment
  by_cases h : r > 1 / 10
  · rw [if_pos h]
    exact ⟨rfl, rfl, fun _ => rfl, fun h2 => absurd h h2⟩
  · rw [if_neg h]
    exact ⟨rfl, rfl, fun h2 => absurd h2 h, fun _ => rfl⟩

theorem processPayment_spec_w :
    (processPayment 1 0 "k3j9q0p2m").2 =
      Except.ok
        { success := true
        , transactionId := "TXN_0_k3j9q0p2m"
        , message := "Payment processed successfully" } :=
  (processPayment_spec 1 0 "k3j9q0p2m").2.2.1 (by norm_num)

/-- Claim C6: `getRevenue`, `getRentalStatus` and `getTopProducts` issue
no HTTP request; each resolves after its artificial delay with
synthetically generated data, `getRevenue` producing one record per day
between the given start and end dates (one per index below
`ceil((end - start) / day)`, dated `start + i` days). -/
theorem mock_reports_no_backend (rnd : Nat → ℚ) (startMs endMs : Int) :
    hasFetch (getRevenue rnd startMs endMs).1 = false ∧
    (getRevenue rnd startMs endMs).1 = [Ev.delay 500] ∧
    (getRevenue rnd startMs endMs).2.length = (revenueDays startMs endMs).toNat ∧
    (∀ i : Nat, i < (revenueDays startMs endMs).toNat →
      ((getRevenue rnd startMs endMs).2[i]?).map RevRecord.date
        = some (isoDateOfMs (startMs + (i : Int) * msPerDay))) ∧
    hasFetch getRentalStatus.1 = false ∧
    getRentalStatus.1 = [Ev.delay 300] ∧
    hasFetch getTopProducts.1 = false ∧
    getTopProducts.1 = [Ev.delay 400] := by
  refine ⟨rfl, rfl, by simp [getRevenue], ?_, rfl, rfl, rfl, rfl⟩
  intro i hi
  simp [getRevenue, List.getElem?_map, List.getElem?_range, hi, revRecordAt]

theorem mock_reports_no_backend_w :
    (getRevenue (fun _ => 1 / 2) 0 86400000).2.length = 1 ∧
    (((getRevenue (fun _ => 1 / 2) 0 86400000).2)[0]?).map RevRecord.date
      = some "1970-01-01" := by
  have h := mock_reports_no_backend (fun _ => 1 / 2) 0 86400000
  have hd : revenueDays 0 86400000 = 1 := by norm_num [revenueDays, msPerDay]
  refine ⟨?_, ?_⟩
  · rw [h.2.2.1, hd]
    rfl
  · rw [h.2.2.2.1 0 (by rw [hd]; exact Nat.zero_lt_one)]
    rfl

/-- Claim C7: `updateRentalStatus` with id `r1` and status `CONFIRMED`
issues a `PUT` to `<base>/rental/r1/status` with JSON body
`\x7b"status":"CONFIRMED"\x7d`, carrying `Content-Type` and, when a
truthy token is stored, the bearer `Authorization` header. -/
theorem updateRentalStatus_request_shape (env : Option String) (storage : Storage) :
    (updateRentalStatusRequest env storage "r1" "CONFIRMED").url
      = API_BASE_URL env ++ "/rental/r1/status" ∧
    (updateRentalStatusRequest env storage "r1" "CONFIRMED").method = "PUT" ∧
    (updateRentalStatusRequest env storage "r1" "CONFIRMED").body
      = some "\x7b\"status\":\"CONFIRMED\"\x7d" ∧
    ("Content-Type", "application/json")
      ∈ (updateRentalStatusRequest env storage "r1" "CONFIRMED").headers ∧
    (∀ t, getItem storage "auth_token" = some t → t ≠ "" →
      ("Authorization", "Bearer " ++ t)
        ∈ (updateRentalStatusRequest env storage "r1" "CONFIRMED").headers) := by
  refine ⟨?_, rfl, rfl, ?_, ?_⟩
  · show API_BASE_URL env ++ "/rental/" ++ "r1" ++ "/status" = _
    rw [String.append_assoc, String.append_assoc]
    rfl
  · simp [updateRentalStatusRequest, getAuthHeaders, plainJsonHeaders]
  · intro t ht hne
    simp [updateRentalStatusRequest, getAuthHeaders, truthyToken, ht, hne,
      plainJsonHeaders]

theorem updateRentalStatus_request_shape_w :
    ("Authorization", "Bearer tok")
      ∈ (updateRentalStatusRequest none [("auth_token", "tok")]
          "r1" "CONFIRMED").headers :=
  (updateRentalStatus_request_shape none [("auth_token", "tok")]).2.2.2.2
    "tok" rfl (by decide)

/-- Claim C8: the `Login` component's submit handler calls no
authentication endpoint; it invokes `onLogin` with role `admin` exactly
when the typed email contains the substring `admin` (role `customer`
otherwise), whatever the password is. -/
theorem login_role_inference (email password : String) :
    (handleSubmit email password).1 = [] ∧
    ((handleSubmit email password).2 = "admin" ↔ jsIncludes email "admin" = true) ∧
    ((handleSubmit email password).2 = "customer" ↔ jsIncludes email "admin" = false) ∧
    (∀ p2 : String, handleSubmit email password = handleSubmit email p2) := by
  unfold handleSubmit
  by_cases h : jsIncludes email "admin" <;> simp [h]

/-- Claim C9: when no token is stored under `auth_token`,
`getCurrentUser` resolves with `\x7b user: null \x7d` without issuing
any HTTP request and without throwing. -/
theorem getCurrentUser_no_token (env : Option String) (storage : Storage)
    (resp : Response) (h : getItem storage "auth_token" = none) :
    getCurrentUser env storage resp
      = (storage, [], Except.ok (some (Json.obj [("user", Json.null)]))) := by
  unfold getCurrentUser
  rw [h]
  rfl

theorem getCurrentUser_no_token_w :
    getCurrentUser none [] ⟨200, none⟩
      = ([], [], Except.ok (some (Json.obj [("user", Json.null)]))) :=
  getCurrentUser_no_token none [] ⟨200, none⟩ rfl
